import Mathlib

/-!
# Verification of the stock-screener backend

Shallow embedding of the Python backend (`backend/crud.py`, `backend/main.py`,
`backend/alphavantage.py`, `backend/models.py`, `backend/schemas.py`) in Lean 4,
with theorems settling the specification claims.

Conventions of the embedding:
* SQLAlchemy tables become lists of row structures inside a `DB` state; a
  query `.filter(...).first()` becomes `List.find?`, `.filter(...).all()`
  becomes `List.filter`, `db.add` + `db.commit` appends a row and assigns the
  autoincrement primary key from a per-table counter, `db.delete` + commit
  removes the row by primary key, and an attribute assignment followed by
  commit rewrites the row with that primary key.  `db.refresh` is a no-op in
  this model (persistence is immediate).
* Python exceptions become `Except PyErr`; FastAPI `HTTPException(code, d)`
  becomes `PyErr.httpError code d`.
* Stateful crud functions return the Python return value paired with the
  updated `DB`.
-/

namespace StockScreener

/-- Python exceptions that occur in the backend: `ValueError` (raised by the
market-data and telegram clients on a missing key), FastAPI's `HTTPException`,
`jose.JWTError`, Python's `NameError` (raised when an undefined name is
evaluated), and the `httpx` transport/status errors raised by
`response.raise_for_status()` or a failed request (collapsed into one
constructor: the endpoints only distinguish `ValueError` from the rest). -/
inductive PyErr where
  | valueError (msg : String)
  | httpError (statusCode : Nat) (detail : String)
  | jwtError
  | nameError (name : String)
  | httpxError
  deriving DecidableEq, Repr

/-! ## Credential primitives

The password-hashing library (`passlib` `CryptContext(schemes=["bcrypt"])`) is
an external collaborator: the spec scopes it out ("password hashing
primitives ... interfaces only", §1) and states its contract in §4.1
("one-way, salted"; `verifyPassword` succeeds on a matching plaintext).  We
model it at that interface level. -/

/-- A per-character substitution standing in for the bcrypt digest; the model
only needs the digest to be recomputable and length-preserving. -/
def bcryptDigest (password : String) : String :=
  String.mk (password.data.map fun c => Char.ofNat ((c.toNat + 7) % 128))

/-- Modelled from the spec: `pwd_context.hash` of the out-of-scope passlib
bcrypt context (spec §1, §4.1: one-way, salted, never reversible).  Bcrypt
hashes are strings in modular-crypt format beginning with the `$2b$` scheme
tag; the salt is abstracted into the fixed context. -/
def pwd_context_hash (password : String) : String :=
  "$2b$12$" ++ bcryptDigest password

/-- Modelled from the spec: `pwd_context.verify` of the out-of-scope passlib
bcrypt context (spec §4.1: verification via the hashing library's verify
primitive, succeeding exactly when the hash was derived from the plaintext). -/
def pwd_context_verify (plain hashed : String) : Bool :=
  hashed == pwd_context_hash plain

/-- Embeds `crud.get_password_hash` (crud.py line 12). -/
def get_password_hash (password : String) : String :=
  pwd_context_hash password

/-- Embeds `crud.verify_password` (crud.py line 15). -/
def verify_password (plain_password hashed_password : String) : Bool :=
  pwd_context_verify plain_password hashed_password

/-! ## Data model (`models.py`, row types) and request schemas (`schemas.py`) -/

/-- Row of the `users` table (models.py `User`). -/
structure UserRow where
  id : Nat
  email : String
  hashed_password : String
  is_active : Bool
  telegram_chat_id : Option String
  telegram_bot_token : Option String
  deriving DecidableEq, Repr

/-- Row of the `watchlist_items` table (models.py `WatchlistItem`). -/
structure WatchlistRow where
  id : Nat
  symbol : String
  company_name : String
  owner_id : Nat
  deriving DecidableEq, Repr

/-- Row of the `stock_notes` table (models.py `StockNote`). -/
structure StockNoteRow where
  id : Nat
  symbol : String
  note : String
  owner_id : Nat
  deriving DecidableEq, Repr

/-- Row of the `alerts` table (models.py `Alert`).  The numeric threshold is a
`Float` column in the source; no arithmetic is ever performed on it, it is
stored and returned verbatim, so it is carried as a rational here. -/
structure AlertRow where
  id : Nat
  symbol : String
  alert_type : String
  threshold : Rat
  is_active : Bool
  owner_id : Nat
  deriving DecidableEq, Repr

/-- Embeds `schemas.UserCreate`. -/
structure UserCreate where
  email : String
  password : String
  deriving DecidableEq, Repr

/-- Embeds `schemas.UserUpdate` (both fields optional, defaulting to null). -/
structure UserUpdate where
  telegram_chat_id : Option String
  telegram_bot_token : Option String
  deriving DecidableEq, Repr

/-- Embeds `schemas.WatchlistItemCreate`: the client payload carries only a symbol
and a company name — it has no owner field. -/
structure WatchlistItemCreate where
  symbol : String
  company_name : String
  deriving DecidableEq, Repr

/-- Embeds `schemas.StockNoteCreate`: symbol and note text, no owner field. -/
structure StockNoteCreate where
  symbol : String
  note : String
  deriving DecidableEq, Repr

/-- Embeds `schemas.AlertCreate`: symbol, alert type, threshold and active flag
(default true), no owner field. -/
structure AlertCreate where
  symbol : String
  alert_type : String
  threshold : Rat
  is_active : Bool
  deriving DecidableEq, Repr

/-- The relational store: one list per table plus the per-table autoincrement
counters that assign primary keys on insert. -/
structure DB where
  users : List UserRow
  watchlist_items : List WatchlistRow
  stock_notes : List StockNoteRow
  alerts : List AlertRow
  next_user_id : Nat
  next_watchlist_id : Nat
  next_note_id : Nat
  next_alert_id : Nat
  deriving Repr

/-- The empty database (fresh `create_all`). -/
def DB.empty : DB :=
  ⟨[], [], [], [], 1, 1, 1, 1⟩

/-! ## Data-access layer (`crud.py`) -/

/-- Embeds `crud.get_user` (crud.py line 18). -/
def get_user (db : DB) (user_id : Nat) : Option UserRow :=
  db.users.find? fun u => u.id == user_id

/-- Embeds `crud.get_user_by_email` (crud.py line 21). -/
def get_user_by_email (db : DB) (email : String) : Option UserRow :=
  db.users.find? fun u => u.email == email

/-- Embeds `crud.create_user` (crud.py line 27): hashes the password, inserts a row
(the `is_active` column default is true, the telegram columns default to
null), commits, and returns the refreshed row. -/
def create_user (db : DB) (user : UserCreate) : UserRow × DB :=
  let hashed_password := get_password_hash user.password
  let db_user : UserRow :=
    { id := db.next_user_id, email := user.email,
      hashed_password := hashed_password, is_active := true,
      telegram_chat_id := none, telegram_bot_token := none }
  (db_user,
   { db with users := db.users ++ [db_user], next_user_id := db.next_user_id + 1 })

/-- Embeds `crud.authenticate_user` (crud.py line 35).  The Python function returns
`False` when the email is unknown and the same `False` when the password does
not verify; `False` is rendered as `none` here, a user object as `some`. -/
def authenticate_user (db : DB) (email password : String) : Option UserRow :=
  match get_user_by_email db email with
  | none => none
  | some user =>
    if verify_password password user.hashed_password then some user else none

/-! ## Token resolution (`crud.get_current_user`)

The `jose` JWT library and the `config` module (`SECRET_KEY`, `ALGORITHM`,
`ACCESS_TOKEN_EXPIRE_MINUTES`) are outside `src/`; token
signing/verification is scoped out by the spec (§1).  A decoded bearer token
is modelled by the outcome of the library's verification together with its
subject claim. -/

/-- Modelled from the spec: a bearer token as seen through `jwt.decode`
(spec §4.1): `verified` is false when the signature is invalid, the token is
expired, or it is malformed; `sub` is the optional subject claim of the
payload. -/
structure TokenModel where
  verified : Bool
  sub : Option String
  deriving DecidableEq, Repr

/-- Modelled from the spec: `jose.jwt.decode(token, SECRET_KEY,
algorithms=[ALGORITHM])` — raises `JWTError` unless signature, expiration and
format check out, and otherwise yields the payload, from which `.get("sub")`
reads the optional subject. -/
def jwt_decode_sub (token : TokenModel) : Except PyErr (Option String) :=
  if token.verified then Except.ok token.sub else Except.error PyErr.jwtError

/-- Embeds `crud.get_current_user` (crud.py lines 53–70) as the source actually
executes.  The body begins by constructing
`HTTPException(status_code=status.HTTP_401_UNAUTHORIZED, ...)` (lines 54–58),
but `crud.py` never imports `HTTPException` or `status` (its imports are
datetime, typing, sqlalchemy, passlib, jose and the local modules), so
evaluating that expression raises `NameError: name 'HTTPException' is not
defined` before the `try` block is reached — on every call, for every
token. -/
def get_current_user (_db : DB) (_token : TokenModel) : Except PyErr UserRow :=
  Except.error (PyErr.nameError "HTTPException")

/-- Embeds `crud.get_current_user` as specified (spec §4.1 `resolveToken`) and as
lines 54–70 of crud.py plainly intend, i.e. with `HTTPException` and `status`
imported: decode and verify the token, extract the subject, fail with the 401
credentials exception if verification fails, the subject is missing, or no
user has that email; return the user otherwise. -/
def get_current_user_as_specified (db : DB) (token : TokenModel) :
    Except PyErr UserRow :=
  let credentials_exception :=
    PyErr.httpError 401 "Could not validate credentials"
  match jwt_decode_sub token with
  | Except.error _ => Except.error credentials_exception
  | Except.ok none => Except.error credentials_exception
  | Except.ok (some email) =>
    match get_user_by_email db email with
    | none => Except.error credentials_exception
    | some user => Except.ok user

/-! ## Watchlist, notes, alerts, settings (`crud.py`) -/

/-- Embeds `crud.get_watchlist_items` (crud.py line 72). -/
def get_watchlist_items (db : DB) (user_id : Nat) : List WatchlistRow :=
  db.watchlist_items.filter fun r => r.owner_id == user_id

/-- Embeds `crud.create_watchlist_item` (crud.py line 75): the row is built from the
payload fields plus `owner_id=user_id`; insert assigns the autoincrement
key. -/
def create_watchlist_item (db : DB) (item : WatchlistItemCreate)
    (user_id : Nat) : WatchlistRow × DB :=
  let db_item : WatchlistRow :=
    { id := db.next_watchlist_id, symbol := item.symbol,
      company_name := item.company_name, owner_id := user_id }
  (db_item,
   { db with watchlist_items := db.watchlist_items ++ [db_item],
             next_watchlist_id := db.next_watchlist_id + 1 })

/-- Embeds `crud.delete_watchlist_item` (crud.py line 82): look up the row by id and
owner; if found, delete it (by primary key) and return it, else return null
and leave the table untouched. -/
def delete_watchlist_item (db : DB) (item_id user_id : Nat) :
    Option WatchlistRow × DB :=
  match db.watchlist_items.find?
      (fun r => r.id == item_id && r.owner_id == user_id) with
  | none => (none, db)
  | some db_item =>
    (some db_item,
     { db with watchlist_items :=
         db.watchlist_items.filter fun r => !(r.id == db_item.id) })

/-- The row predicate of `crud.get_stock_note`'s query: owner and symbol both
match. -/
def noteKey (user_id : Nat) (symbol : String) (n : StockNoteRow) : Bool :=
  n.owner_id == user_id && n.symbol == symbol

/-- Embeds `crud.get_stock_note` (crud.py line 89). -/
def get_stock_note (db : DB) (user_id : Nat) (symbol : String) :
    Option StockNoteRow :=
  db.stock_notes.find? (noteKey user_id symbol)

/-- Embeds `crud.create_or_update_stock_note` (crud.py line 92): if a note for this
owner and symbol exists, overwrite its `note` column in place; otherwise
insert a fresh row; commit either way and return the row. -/
def create_or_update_stock_note (db : DB) (user_id : Nat)
    (symbol note_content : String) : StockNoteRow × DB :=
  match get_stock_note db user_id symbol with
  | some db_note =>
    let updated := { db_note with note := note_content }
    (updated,
     { db with stock_notes :=
         db.stock_notes.map fun n => if n.id == db_note.id then updated else n })
  | none =>
    let db_note : StockNoteRow :=
      { id := db.next_note_id, symbol := symbol, note := note_content,
        owner_id := user_id }
    (db_note,
     { db with stock_notes := db.stock_notes ++ [db_note],
               next_note_id := db.next_note_id + 1 })

/-- Embeds `crud.get_alerts` (crud.py line 103). -/
def get_alerts (db : DB) (user_id : Nat) : List AlertRow :=
  db.alerts.filter fun r => r.owner_id == user_id

/-- Embeds `crud.create_alert` (crud.py line 106): row built from the payload fields
plus `owner_id=user_id`. -/
def create_alert (db : DB) (alert : AlertCreate) (user_id : Nat) :
    AlertRow × DB :=
  let db_alert : AlertRow :=
    { id := db.next_alert_id, symbol := alert.symbol,
      alert_type := alert.alert_type, threshold := alert.threshold,
      is_active := alert.is_active, owner_id := user_id }
  (db_alert,
   { db with alerts := db.alerts ++ [db_alert],
             next_alert_id := db.next_alert_id + 1 })

/-- Embeds `crud.delete_alert` (crud.py line 113): analogous to
`delete_watchlist_item`. -/
def delete_alert (db : DB) (alert_id user_id : Nat) : Option AlertRow × DB :=
  match db.alerts.find?
      (fun r => r.id == alert_id && r.owner_id == user_id) with
  | none => (none, db)
  | some db_alert =>
    (some db_alert,
     { db with alerts := db.alerts.filter fun r => !(r.id == db_alert.id) })

/-- Embeds `crud.update_user_settings` (crud.py line 120): assign each telegram field
on the ORM user object only when the corresponding payload field is not null,
then commit (persisting the mutated row, identified by its primary key). -/
def update_user_settings (db : DB) (user : UserRow) (settings : UserUpdate) :
    UserRow × DB :=
  let user1 :=
    match settings.telegram_chat_id with
    | some v => { user with telegram_chat_id := some v }
    | none => user
  let user2 :=
    match settings.telegram_bot_token with
    | some v => { user1 with telegram_bot_token := some v }
    | none => user1
  (user2, { db with users := db.users.map fun u => if u.id == user.id then user2 else u })

/-! ## Market-data client (`alphavantage.py`)

Each client function builds a parameter set and delegates to
`_get_json_async`, which first checks the module-level
`ALPHA_VANTAGE_API_KEY` (read from the environment, so either absent or a
string), injects it into the parameters, and performs one HTTP GET whose
non-2xx statuses and transport failures raise `httpx` errors
(`response.raise_for_status()`).  The upstream HTTP exchange is the external
world: it is modelled as an oracle from the final parameter list to either a
verbatim JSON payload or a transport/status failure.  Integer parameter
values (`time_period`) appear query-encoded, i.e. stringified. -/

/-- The upstream JSON payload, returned verbatim (spec §4.3). -/
abbrev Payload := String

/-- The process environment of the market-data client: the
`ALPHA_VANTAGE_API_KEY` environment variable and the upstream HTTP oracle
(`none` = transport failure or non-2xx status, which `_get_json_async` turns
into an `httpx` exception). -/
structure Env where
  apiKey : Option String
  fetch : List (String × String) → Option Payload

/-- Python truthiness of the optional API-key string: `if not
ALPHA_VANTAGE_API_KEY` fires on an unset variable and on an empty string. -/
def truthy : Option String → Bool
  | none => false
  | some s => !(s == "")

/-- Embeds `alphavantage._get_json_async` (alphavantage.py lines 7–14): raise
`ValueError` when the key is falsy — before any HTTP request — else set
`params["apikey"]` and GET, raising an `httpx` error on failure. -/
def get_json_async (env : Env) (params : List (String × String)) :
    Except PyErr Payload :=
  if truthy env.apiKey then
    match env.fetch (params ++ [("apikey", env.apiKey.getD "")]) with
    | some payload => Except.ok payload
    | none => Except.error PyErr.httpxError
  else
    Except.error
      (PyErr.valueError "ALPHA_VANTAGE_API_KEY environment variable not set.")

/-- Embeds `alphavantage.search_stock_async` (line 16). -/
def search_stock_async (env : Env) (keywords : String) : Except PyErr Payload :=
  get_json_async env [("function", "SYMBOL_SEARCH"), ("keywords", keywords)]

/-- Embeds `alphavantage.get_company_overview_async` (line 23). -/
def get_company_overview_async (env : Env) (symbol : String) :
    Except PyErr Payload :=
  get_json_async env [("function", "OVERVIEW"), ("symbol", symbol)]

/-- Embeds `alphavantage.get_earnings_async` (line 30). -/
def get_earnings_async (env : Env) (symbol : String) : Except PyErr Payload :=
  get_json_async env [("function", "EARNINGS"), ("symbol", symbol)]

/-- Embeds `alphavantage.get_daily_time_series_async` (line 37). -/
def get_daily_time_series_async (env : Env) (symbol : String) :
    Except PyErr Payload :=
  get_json_async env
    [("function", "TIME_SERIES_DAILY"), ("symbol", symbol),
     ("outputsize", "compact")]

/-- Embeds `alphavantage.get_rsi_async` (line 45): interval defaults to "daily",
time period to 14. -/
def get_rsi_async (env : Env) (symbol : String) (interval : String := "daily")
    (time_period : Nat := 14) : Except PyErr Payload :=
  get_json_async env
    [("function", "RSI"), ("symbol", symbol), ("interval", interval),
     ("time_period", toString time_period), ("series_type", "close")]

/-- Embeds `alphavantage.get_bollinger_bands_async` (line 55): interval defaults to
"daily", time period to 20. -/
def get_bollinger_bands_async (env : Env) (symbol : String)
    (interval : String := "daily") (time_period : Nat := 20) :
    Except PyErr Payload :=
  get_json_async env
    [("function", "BBANDS"), ("symbol", symbol), ("interval", interval),
     ("time_period", toString time_period), ("series_type", "close")]

/-- Embeds `alphavantage.get_news_sentiment_async` (line 65). -/
def get_news_sentiment_async (env : Env) (symbol : String) :
    Except PyErr Payload :=
  get_json_async env [("function", "NEWS_SENTIMENT"), ("tickers", symbol)]

/-- The join of `asyncio.gather` over the six awaitables of
`get_stock_details_endpoint` (main.py lines 74–81): all six results are
collected, and if any branch raised, the exception propagates.  `gather`
propagates the first exception raised in time; this model propagates the
leftmost one.  The two orders are observationally equal at the endpoint: for
a fixed key state either every failing branch raises an `httpx` error
(truthy key) or every branch raises the same `ValueError` (falsy key), so
mixed failure classes cannot occur. -/
def gather6 (a b c d e f : Except PyErr Payload) :
    Except PyErr (Payload × Payload × Payload × Payload × Payload × Payload) :=
  match a with
  | Except.error x => Except.error x
  | Except.ok va =>
    match b with
    | Except.error x => Except.error x
    | Except.ok vb =>
      match c with
      | Except.error x => Except.error x
      | Except.ok vc =>
        match d with
        | Except.error x => Except.error x
        | Except.ok vd =>
          match e with
          | Except.error x => Except.error x
          | Except.ok ve =>
            match f with
            | Except.error x => Except.error x
            | Except.ok vf => Except.ok (va, vb, vc, vd, ve, vf)

/-! ## HTTP endpoints (`main.py`)

Handlers are modelled on their resolved inputs: the database session, and —
for protected routes — the current user produced by the dependency.  A
handler returns its response body or the `HTTPException` it raises; stateful
handlers also return the updated database. -/

/-- Embeds `main.create_user` endpoint, POST /users/ (main.py lines 27–32): 400 when
the email is already registered, else delegate to `crud.create_user`. -/
def create_user_endpoint (db : DB) (user : UserCreate) :
    Except PyErr UserRow × DB :=
  match get_user_by_email db user.email with
  | some _ => (Except.error (PyErr.httpError 400 "Email already registered"), db)
  | none =>
    let (db_user, db') := create_user db user
    (Except.ok db_user, db')

/-- Embeds `main.search_stock_endpoint`, GET /search/stock (main.py lines 61–69):
`ValueError` becomes 400 with the error text, any other exception becomes a
generic 500. -/
def search_stock_endpoint (env : Env) (keywords : String) :
    Except PyErr Payload :=
  match search_stock_async env keywords with
  | Except.ok data => Except.ok data
  | Except.error (PyErr.valueError msg) =>
    Except.error (PyErr.httpError 400 msg)
  | Except.error _ =>
    Except.error (PyErr.httpError 500 "Error fetching stock data")

/-- Embeds `main.get_stock_details_endpoint`, GET /stock/{symbol} (main.py lines
71–94): gather the six symbol-scoped calls, and on success return the dict
with exactly the keys overview, earnings, daily_data, rsi, bbands,
news_sentiment; `ValueError` becomes 400 with the error text, any other
exception a generic 500. -/
def get_stock_details_endpoint (env : Env) (symbol : String) :
    Except PyErr (List (String × Payload)) :=
  match gather6 (get_company_overview_async env symbol)
      (get_earnings_async env symbol)
      (get_daily_time_series_async env symbol)
      (get_rsi_async env symbol)
      (get_bollinger_bands_async env symbol)
      (get_news_sentiment_async env symbol) with
  | Except.ok (overview, earnings, daily_data, rsi, bbands, news_sentiment) =>
    Except.ok
      [("overview", overview), ("earnings", earnings),
       ("daily_data", daily_data), ("rsi", rsi), ("bbands", bbands),
       ("news_sentiment", news_sentiment)]
  | Except.error (PyErr.valueError msg) =>
    Except.error (PyErr.httpError 400 msg)
  | Except.error _ =>
    Except.error (PyErr.httpError 500 "Error fetching stock details")

/-- Embeds `main.add_to_watchlist`, POST /watchlist/ (main.py lines 96–102): the
owner id passed to the crud layer is `current_user.id` from the resolved
bearer identity; the payload has no owner field. -/
def add_to_watchlist (db : DB) (current_user : UserRow)
    (item : WatchlistItemCreate) : WatchlistRow × DB :=
  create_watchlist_item db item current_user.id

/-- Embeds `main.delete_from_watchlist`, DELETE /watchlist/{item_id} (main.py lines
111–120): 404 when the crud delete returns null. -/
def delete_from_watchlist_endpoint (db : DB) (current_user : UserRow)
    (item_id : Nat) : Except PyErr String × DB :=
  let (db_item, db') := delete_watchlist_item db item_id current_user.id
  match db_item with
  | none => (Except.error (PyErr.httpError 404 "Item not found in watchlist"), db')
  | some _ => (Except.ok "Item deleted successfully", db')

/-- Embeds `main.create_stock_note`, POST /stock_notes/ (main.py lines 122–128):
upsert keyed by the resolved caller's id and the payload symbol. -/
def create_stock_note_endpoint (db : DB) (current_user : UserRow)
    (note : StockNoteCreate) : StockNoteRow × DB :=
  create_or_update_stock_note db current_user.id note.symbol note.note

/-- Embeds `main.create_alert`, POST /alerts/ (main.py lines 138–144): owner id is
`current_user.id` from the resolved bearer identity. -/
def create_alert_endpoint (db : DB) (current_user : UserRow)
    (alert : AlertCreate) : AlertRow × DB :=
  create_alert db alert current_user.id

/-- Embeds `main.delete_alert`, DELETE /alerts/{alert_id} (main.py lines 153–162):
404 when the crud delete returns null. -/
def delete_alert_endpoint (db : DB) (current_user : UserRow)
    (alert_id : Nat) : Except PyErr String × DB :=
  let (db_alert, db') := delete_alert db alert_id current_user.id
  match db_alert with
  | none => (Except.error (PyErr.httpError 404 "Alert not found"), db')
  | some _ => (Except.ok "Alert deleted successfully", db')

/-- Embeds `main.update_users_me_settings`, PUT /users/me/settings (main.py lines
53–59): direct delegation to `crud.update_user_settings` on the resolved
caller. -/
def update_users_me_settings (db : DB) (current_user : UserRow)
    (settings : UserUpdate) : UserRow × DB :=
  update_user_settings db current_user settings

/-! ## Concrete instances used by the witness theorems -/

/-- A stored user row, as `create_user` would produce it for the first
registration. -/
def aliceRow : UserRow :=
  { id := 1, email := "alice@example.com",
    hashed_password := get_password_hash "correct-pw", is_active := true,
    telegram_chat_id := none, telegram_bot_token := none }

/-- A one-user database. -/
def demoDB : DB :=
  { users := [aliceRow], watchlist_items := [], stock_notes := [],
    alerts := [], next_user_id := 2, next_watchlist_id := 1,
    next_note_id := 1, next_alert_id := 1 }

/-- A second stored user. -/
def bobRow : UserRow :=
  { id := 2, email := "bob@example.com",
    hashed_password := get_password_hash "bob-pw", is_active := true,
    telegram_chat_id := none, telegram_bot_token := none }

/-- A watchlist row owned by the first user. -/
def demoItem : WatchlistRow :=
  { id := 1, symbol := "AAPL", company_name := "Apple Inc.", owner_id := 1 }

/-- An alert row owned by the first user. -/
def demoAlert : AlertRow :=
  { id := 1, symbol := "AAPL", alert_type := "RSI_BELOW", threshold := 30,
    is_active := true, owner_id := 1 }

/-- A two-user database in which user 1 owns one watchlist item and one
alert. -/
def demoDB2 : DB :=
  { users := [aliceRow, bobRow], watchlist_items := [demoItem],
    stock_notes := [], alerts := [demoAlert], next_user_id := 3,
    next_watchlist_id := 2, next_note_id := 1, next_alert_id := 2 }

/-- A market-data environment whose API key is unset. -/
def demoEnvNoKey : Env :=
  { apiKey := none, fetch := fun _ => some "payload" }

/-- A market-data environment with a key, whose upstream answers every
request except the momentum-indicator (RSI) one, which fails at the HTTP
level. -/
def demoEnvRsiFail : Env :=
  { apiKey := some "demo-key",
    fetch := fun params =>
      if params.contains ("function", "RSI") then none else some "payload" }

end StockScreener

namespace StockScreener

/-! ## Theorems -/

/-- The modelled bcrypt hash is never the plaintext: it is strictly longer
(scheme tag plus digest). -/
theorem pwd_context_hash_ne (p : String) : pwd_context_hash p ≠ p := by
  intro h
  have hl : (pwd_context_hash p).length = p.length := by rw [h]
  rw [pwd_context_hash, bcryptDigest] at hl
  simp only [String.length_append, String.length_mk, List.length_map] at hl
  have h7 : ("$2b$12$" : String).length = 7 := rfl
  rw [h7, String.length] at hl
  omega

/-- C6: for every registration, the stored credential
(`hashed_password` of the row `create_user` inserts and returns) differs from
the plaintext password, and `verify_password` accepts the plaintext against
it. -/
theorem create_user_never_stores_plaintext (db : DB) (user : UserCreate) :
    (create_user db user).1.hashed_password ≠ user.password
    ∧ verify_password user.password (create_user db user).1.hashed_password = true
    ∧ (create_user db user).1 ∈ (create_user db user).2.users := by
  refine ⟨?_, ?_, ?_⟩
  · show get_password_hash user.password ≠ user.password
    exact pwd_context_hash_ne user.password
  · show verify_password user.password (get_password_hash user.password) = true
    simp [verify_password, pwd_context_verify, get_password_hash]
  · simp [create_user]

/-- The two authentication failure modes of `crud.authenticate_user`:
unknown email, or a stored user whose hash rejects the password. -/
def authFailure (db : DB) (email password : String) : Prop :=
  get_user_by_email db email = none
  ∨ ∃ u, get_user_by_email db email = some u
      ∧ verify_password password u.hashed_password = false

/-- Lemma: `authenticate_user` returns the failure value `none` (Python `False`) in
every failure mode. -/
theorem authenticate_user_fails (db : DB) (email password : String)
    (h : authFailure db email password) :
    authenticate_user db email password = none := by
  rcases h with h | ⟨u, hu, hv⟩
  · simp [authenticate_user, h]
  · simp [authenticate_user, hu, hv]

/-- C4: `authenticate_user` returns a value (its result type is an option,
no exception path) in both failure modes, and any two failing invocations —
unknown email or wrong password, over arbitrary databases — return the very
same value, so the caller cannot distinguish them. -/
theorem authenticate_user_failure_indistinguishable
    (db₁ : DB) (e₁ p₁ : String) (db₂ : DB) (e₂ p₂ : String)
    (h₁ : authFailure db₁ e₁ p₁) (h₂ : authFailure db₂ e₂ p₂) :
    authenticate_user db₁ e₁ p₁ = none
    ∧ authenticate_user db₁ e₁ p₁ = authenticate_user db₂ e₂ p₂ :=
  ⟨authenticate_user_fails db₁ e₁ p₁ h₁, by
    rw [authenticate_user_fails db₁ e₁ p₁ h₁,
      authenticate_user_fails db₂ e₂ p₂ h₂]⟩

/-- Witness for C4: an unknown email against `demoDB` and a wrong password
for the stored user yield the same `none`. -/
theorem authenticate_user_failure_indistinguishable_witness :
    authenticate_user demoDB "bob@example.com" "anything" = none
    ∧ authenticate_user demoDB "bob@example.com" "anything"
      = authenticate_user demoDB "alice@example.com" "wrong-pw" :=
  authenticate_user_failure_indistinguishable demoDB "bob@example.com"
    "anything" demoDB "alice@example.com" "wrong-pw"
    (Or.inl (by decide)) (Or.inr ⟨aliceRow, by decide, by decide⟩)

/-- C9: POST /users/ fails with 400 "Email already registered" and leaves the
database untouched when some stored user already has the requested email;
otherwise it inserts exactly one new row carrying that email and returns
it. -/
theorem create_user_endpoint_email_unique (db : DB) (user : UserCreate) :
    ((∃ u ∈ db.users, u.email = user.email) →
      create_user_endpoint db user =
        (Except.error (PyErr.httpError 400 "Email already registered"), db))
    ∧ ((∀ u ∈ db.users, u.email ≠ user.email) →
      ∃ r, create_user_endpoint db user =
          (Except.ok r,
           { db with users := db.users ++ [r],
                     next_user_id := db.next_user_id + 1 })
        ∧ r.email = user.email) := by
  constructor
  · rintro ⟨u, hu, he⟩
    rcases hfind : get_user_by_email db user.email with _ | u'
    · exfalso
      have := List.find?_eq_none.mp hfind u hu
      simp [he] at this
    · simp [create_user_endpoint, hfind]
  · intro h
    have hfind : get_user_by_email db user.email = none :=
      List.find?_eq_none.mpr fun u hu => by simpa using h u hu
    refine ⟨(create_user db user).1, ?_, rfl⟩
    simp [create_user_endpoint, hfind, create_user]

/-- Witness for C9: re-registering the stored email is rejected with 400 and
no change; a fresh email is inserted and returned. -/
theorem create_user_endpoint_email_unique_witness :
    create_user_endpoint demoDB ⟨"alice@example.com", "pw2"⟩ =
      (Except.error (PyErr.httpError 400 "Email already registered"), demoDB)
    ∧ ∃ r, create_user_endpoint demoDB ⟨"bob@example.com", "pw3"⟩ =
        (Except.ok r,
         { demoDB with users := demoDB.users ++ [r],
                       next_user_id := demoDB.next_user_id + 1 })
      ∧ r.email = "bob@example.com" :=
  ⟨(create_user_endpoint_email_unique demoDB ⟨"alice@example.com", "pw2"⟩).1
      ⟨aliceRow, by decide, by decide⟩,
   (create_user_endpoint_email_unique demoDB ⟨"bob@example.com", "pw3"⟩).2
      (by decide)⟩

/-- C3: when no watchlist row (resp. alert row) has both the requested id and
the caller as owner — in particular when the id belongs to a row owned by a
different user — the crud deletes return the null sentinel without touching
the table, and the endpoints turn that into a 404 with the database
unchanged. -/
theorem delete_absent_returns_not_found (db : DB) (cu : UserRow)
    (item_id alert_id : Nat)
    (hw : ∀ r ∈ db.watchlist_items, ¬(r.id = item_id ∧ r.owner_id = cu.id))
    (ha : ∀ r ∈ db.alerts, ¬(r.id = alert_id ∧ r.owner_id = cu.id)) :
    delete_watchlist_item db item_id cu.id = (none, db)
    ∧ delete_alert db alert_id cu.id = (none, db)
    ∧ delete_from_watchlist_endpoint db cu item_id =
        (Except.error (PyErr.httpError 404 "Item not found in watchlist"), db)
    ∧ delete_alert_endpoint db cu alert_id =
        (Except.error (PyErr.httpError 404 "Alert not found"), db) := by
  have hfw : db.watchlist_items.find?
      (fun r => r.id == item_id && r.owner_id == cu.id) = none :=
    List.find?_eq_none.mpr fun r hr => by simpa using hw r hr
  have hfa : db.alerts.find?
      (fun r => r.id == alert_id && r.owner_id == cu.id) = none :=
    List.find?_eq_none.mpr fun r hr => by simpa using ha r hr
  refine ⟨?_, ?_, ?_, ?_⟩
  · simp [delete_watchlist_item, hfw]
  · simp [delete_alert, hfa]
  · simp [delete_from_watchlist_endpoint, delete_watchlist_item, hfw]
  · simp [delete_alert_endpoint, delete_alert, hfa]

/-- Witness for C3: user 2 attempts to delete user 1's watchlist item and
alert (id 1 each): both deletes report not-found and `demoDB2` is returned
unchanged. -/
theorem delete_absent_returns_not_found_witness :
    delete_watchlist_item demoDB2 1 bobRow.id = (none, demoDB2)
    ∧ delete_alert demoDB2 1 bobRow.id = (none, demoDB2)
    ∧ delete_from_watchlist_endpoint demoDB2 bobRow 1 =
        (Except.error (PyErr.httpError 404 "Item not found in watchlist"),
         demoDB2)
    ∧ delete_alert_endpoint demoDB2 bobRow 1 =
        (Except.error (PyErr.httpError 404 "Alert not found"), demoDB2) :=
  delete_absent_returns_not_found demoDB2 bobRow 1 1 (by decide) (by decide)

/-- C8: the settings update applies only non-null payload fields — a null
chat-id (resp. bot-token) leaves the stored value unchanged, a non-null one
overwrites it — and never changes id, email, password hash or active flag;
the stored table changes only at the caller's row. -/
theorem update_settings_nonnull_only (db : DB) (user : UserRow)
    (settings : UserUpdate) :
    ((update_users_me_settings db user settings).1.id = user.id
      ∧ (update_users_me_settings db user settings).1.email = user.email
      ∧ (update_users_me_settings db user settings).1.hashed_password
          = user.hashed_password
      ∧ (update_users_me_settings db user settings).1.is_active
          = user.is_active)
    ∧ (settings.telegram_chat_id = none →
        (update_users_me_settings db user settings).1.telegram_chat_id
          = user.telegram_chat_id)
    ∧ (settings.telegram_bot_token = none →
        (update_users_me_settings db user settings).1.telegram_bot_token
          = user.telegram_bot_token)
    ∧ (∀ v, settings.telegram_chat_id = some v →
        (update_users_me_settings db user settings).1.telegram_chat_id
          = some v)
    ∧ (∀ v, settings.telegram_bot_token = some v →
        (update_users_me_settings db user settings).1.telegram_bot_token
          = some v)
    ∧ (update_users_me_settings db user settings).2.users
        = db.users.map fun u =>
            if u.id == user.id
            then (update_users_me_settings db user settings).1 else u := by
  rcases hc : settings.telegram_chat_id with _ | vc <;>
    rcases hb : settings.telegram_bot_token with _ | vb <;>
      simp [update_users_me_settings, update_user_settings, hc, hb]

/-- Witness for C8: updating `demoDB`'s user with a null chat-id and a
non-null bot token leaves the chat-id and the password hash as they were. -/
theorem update_settings_nonnull_only_witness :
    (update_users_me_settings demoDB aliceRow ⟨none, some "tok"⟩).1.telegram_chat_id
      = aliceRow.telegram_chat_id
    ∧ (update_users_me_settings demoDB aliceRow ⟨none, some "tok"⟩).1.hashed_password
      = aliceRow.hashed_password :=
  ⟨(update_settings_nonnull_only demoDB aliceRow ⟨none, some "tok"⟩).2.1 rfl,
   (update_settings_nonnull_only demoDB aliceRow ⟨none, some "tok"⟩).1.2.2.1⟩

/-- C10: every row created through the authenticated create endpoints carries
the resolved caller's id as owner, for every client payload (none of which
has an owner field): the watchlist and alert endpoints append exactly one row
owned by the caller, and the note endpoint returns a created-or-updated row
owned by the caller, the table being either extended by that row or rewritten
only at that row. -/
theorem created_rows_owner_is_caller (db : DB) (cu : UserRow)
    (item : WatchlistItemCreate) (alert : AlertCreate)
    (note : StockNoteCreate) :
    ((add_to_watchlist db cu item).1.owner_id = cu.id
      ∧ (add_to_watchlist db cu item).2.watchlist_items
          = db.watchlist_items ++ [(add_to_watchlist db cu item).1])
    ∧ ((create_alert_endpoint db cu alert).1.owner_id = cu.id
      ∧ (create_alert_endpoint db cu alert).2.alerts
          = db.alerts ++ [(create_alert_endpoint db cu alert).1])
    ∧ ((create_stock_note_endpoint db cu note).1.owner_id = cu.id
      ∧ ((create_stock_note_endpoint db cu note).2.stock_notes
            = db.stock_notes ++ [(create_stock_note_endpoint db cu note).1]
        ∨ (create_stock_note_endpoint db cu note).2.stock_notes
            = db.stock_notes.map fun n =>
                if n.id == (create_stock_note_endpoint db cu note).1.id
                then (create_stock_note_endpoint db cu note).1 else n)) := by
  refine ⟨⟨rfl, rfl⟩, ⟨rfl, rfl⟩, ?_, ?_⟩
  · rcases hfind : get_stock_note db cu.id note.symbol with _ | m
    · simp [create_stock_note_endpoint, create_or_update_stock_note, hfind]
    · have hkey := List.find?_some hfind
      have howner : m.owner_id = cu.id := by
        simp [noteKey, Bool.and_eq_true] at hkey
        exact hkey.1
      simp [create_stock_note_endpoint, create_or_update_stock_note, hfind,
        howner]
  · rcases hfind : get_stock_note db cu.id note.symbol with _ | m
    · left
      simp [create_stock_note_endpoint, create_or_update_stock_note, hfind]
    · right
      simp [create_stock_note_endpoint, create_or_update_stock_note, hfind]

/-- C5 (code bug): `crud.get_current_user` never produces the 401
`AuthError` nor a user — it raises `NameError` on every call, because
`crud.py` builds `HTTPException(status_code=status.HTTP_401_UNAUTHORIZED, …)`
without ever importing `HTTPException` or `status`.  The second conjunct
shows the behaviour the spec describes on the same concrete input: under
`get_current_user_as_specified` (the body with the imports present), a
verified token whose subject is the stored user's email resolves to that
user. -/
theorem get_current_user_always_name_error :
    (∀ (db : DB) (token : TokenModel),
      get_current_user db token =
        Except.error (PyErr.nameError "HTTPException"))
    ∧ get_current_user_as_specified demoDB ⟨true, some "alice@example.com"⟩
        = Except.ok aliceRow :=
  ⟨fun _ _ => rfl, rfl⟩

/-- C7: with a falsy API key, every market-data client operation returns the
`ValueError` ("ConfigurationError") with the fixed message — for every
upstream oracle, i.e. independently of any HTTP exchange — and the two
endpoints that consume the client map it to a 400 carrying that message. -/
theorem missing_api_key_config_error (env : Env)
    (keywords symbol interval : String) (time_period : Nat)
    (h : truthy env.apiKey = false) :
    search_stock_async env keywords =
      Except.error (PyErr.valueError
        "ALPHA_VANTAGE_API_KEY environment variable not set.")
    ∧ get_company_overview_async env symbol =
      Except.error (PyErr.valueError
        "ALPHA_VANTAGE_API_KEY environment variable not set.")
    ∧ get_earnings_async env symbol =
      Except.error (PyErr.valueError
        "ALPHA_VANTAGE_API_KEY environment variable not set.")
    ∧ get_daily_time_series_async env symbol =
      Except.error (PyErr.valueError
        "ALPHA_VANTAGE_API_KEY environment variable not set.")
    ∧ get_rsi_async env symbol interval time_period =
      Except.error (PyErr.valueError
        "ALPHA_VANTAGE_API_KEY environment variable not set.")
    ∧ get_bollinger_bands_async env symbol interval time_period =
      Except.error (PyErr.valueError
        "ALPHA_VANTAGE_API_KEY environment variable not set.")
    ∧ get_news_sentiment_async env symbol =
      Except.error (PyErr.valueError
        "ALPHA_VANTAGE_API_KEY environment variable not set.")
    ∧ search_stock_endpoint env keywords =
      Except.error (PyErr.httpError 400
        "ALPHA_VANTAGE_API_KEY environment variable not set.")
    ∧ get_stock_details_endpoint env symbol =
      Except.error (PyErr.httpError 400
        "ALPHA_VANTAGE_API_KEY environment variable not set.") := by
  refine ⟨?_, ?_, ?_, ?_, ?_, ?_, ?_, ?_, ?_⟩ <;>
    simp [search_stock_async, get_company_overview_async, get_earnings_async,
      get_daily_time_series_async, get_rsi_async, get_bollinger_bands_async,
      get_news_sentiment_async, search_stock_endpoint,
      get_stock_details_endpoint, gather6, get_json_async, h]

/-- Witness for C7: in the keyless environment, the momentum-indicator call
reports the configuration `ValueError` and the search endpoint answers
400. -/
theorem missing_api_key_config_error_witness :
    get_rsi_async demoEnvNoKey "IBM" "daily" 14 =
      Except.error (PyErr.valueError
        "ALPHA_VANTAGE_API_KEY environment variable not set.")
    ∧ search_stock_endpoint demoEnvNoKey "IBM" =
      Except.error (PyErr.httpError 400
        "ALPHA_VANTAGE_API_KEY environment variable not set.")
    ∧ get_stock_details_endpoint demoEnvNoKey "IBM" =
      Except.error (PyErr.httpError 400
        "ALPHA_VANTAGE_API_KEY environment variable not set.") :=
  ⟨(missing_api_key_config_error demoEnvNoKey "IBM" "IBM" "daily" 14
      rfl).2.2.2.2.1,
   (missing_api_key_config_error demoEnvNoKey "IBM" "IBM" "daily" 14
      rfl).2.2.2.2.2.2.2.1,
   (missing_api_key_config_error demoEnvNoKey "IBM" "IBM" "daily" 14
      rfl).2.2.2.2.2.2.2.2⟩

/-- With a truthy key, the only failure `_get_json_async` can raise is the
`httpx` transport/status error: the `ValueError` branch is guarded by the
key check. -/
theorem get_json_async_error_is_httpx (env : Env)
    (params : List (String × String)) (h : truthy env.apiKey = true)
    (e : PyErr) (he : get_json_async env params = Except.error e) :
    e = PyErr.httpxError := by
  rw [get_json_async, if_pos h] at he
  rcases hf : env.fetch (params ++ [("apikey", env.apiKey.getD "")]) with
      _ | payload
  · rw [hf] at he
    exact (Except.error.inj he).symm
  · rw [hf] at he
    exact absurd he (by simp)

/-- C1: GET /stock/{symbol} with a configured key is all-or-nothing over the
six symbol-scoped market-data calls: when all six succeed it returns exactly
the keys overview, earnings, daily_data, rsi, bbands, news_sentiment bound to
the corresponding results, and when any of the six fails (with the `httpx`
upstream/network error, the only failure left once the key is truthy) the
whole endpoint fails with the generic 500 and no partial result. -/
theorem stock_details_all_or_nothing (env : Env) (symbol : String)
    (hkey : truthy env.apiKey = true) :
    (∀ o e d r b n,
      get_company_overview_async env symbol = Except.ok o →
      get_earnings_async env symbol = Except.ok e →
      get_daily_time_series_async env symbol = Except.ok d →
      get_rsi_async env symbol = Except.ok r →
      get_bollinger_bands_async env symbol = Except.ok b →
      get_news_sentiment_async env symbol = Except.ok n →
      get_stock_details_endpoint env symbol =
        Except.ok
          [("overview", o), ("earnings", e), ("daily_data", d), ("rsi", r),
           ("bbands", b), ("news_sentiment", n)])
    ∧ (¬((get_company_overview_async env symbol).isOk = true
        ∧ (get_earnings_async env symbol).isOk = true
        ∧ (get_daily_time_series_async env symbol).isOk = true
        ∧ (get_rsi_async env symbol).isOk = true
        ∧ (get_bollinger_bands_async env symbol).isOk = true
        ∧ (get_news_sentiment_async env symbol).isOk = true) →
      get_stock_details_endpoint env symbol =
        Except.error (PyErr.httpError 500 "Error fetching stock details")) := by
  constructor
  · intro o e d r b n h1 h2 h3 h4 h5 h6
    unfold get_stock_details_endpoint
    rw [h1, h2, h3, h4, h5, h6]
    simp [gather6]
  · intro hnot
    rcases h1 : get_company_overview_async env symbol with e1 | o
    · obtain rfl := get_json_async_error_is_httpx env _ hkey e1 h1
      unfold get_stock_details_endpoint
      rw [h1]
      simp [gather6]
    rcases h2 : get_earnings_async env symbol with e2 | e
    · obtain rfl := get_json_async_error_is_httpx env _ hkey e2 h2
      unfold get_stock_details_endpoint
      rw [h1, h2]
      simp [gather6]
    rcases h3 : get_daily_time_series_async env symbol with e3 | d
    · obtain rfl := get_json_async_error_is_httpx env _ hkey e3 h3
      unfold get_stock_details_endpoint
      rw [h1, h2, h3]
      simp [gather6]
    rcases h4 : get_rsi_async env symbol with e4 | r
    · obtain rfl := get_json_async_error_is_httpx env _ hkey e4 h4
      unfold get_stock_details_endpoint
      rw [h1, h2, h3, h4]
      simp [gather6]
    rcases h5 : get_bollinger_bands_async env symbol with e5 | b
    · obtain rfl := get_json_async_error_is_httpx env _ hkey e5 h5
      unfold get_stock_details_endpoint
      rw [h1, h2, h3, h4, h5]
      simp [gather6]
    rcases h6 : get_news_sentiment_async env symbol with e6 | n
    · obtain rfl := get_json_async_error_is_httpx env _ hkey e6 h6
      unfold get_stock_details_endpoint
      rw [h1, h2, h3, h4, h5, h6]
      simp [gather6]
    exact absurd
      ⟨by rw [h1]; rfl, by rw [h2]; rfl, by rw [h3]; rfl, by rw [h4]; rfl,
       by rw [h5]; rfl, by rw [h6]; rfl⟩ hnot

/-- Witness for C1: in the environment whose upstream fails exactly the RSI
call, the aggregate endpoint returns the generic 500 even though the other
five calls succeed. -/
theorem stock_details_all_or_nothing_witness :
    get_stock_details_endpoint demoEnvRsiFail "IBM" =
      Except.error (PyErr.httpError 500 "Error fetching stock details")
    ∧ (get_company_overview_async demoEnvRsiFail "IBM").isOk = true
    ∧ (get_rsi_async demoEnvRsiFail "IBM").isOk = false :=
  ⟨(stock_details_all_or_nothing demoEnvRsiFail "IBM" rfl).2 (by decide),
   by decide, by decide⟩

/-- Mapping a function that fixes every element of a list is the identity. -/
theorem map_fixes_eq_self {α : Type} (l : List α) (f : α → α)
    (h : ∀ a ∈ l, f a = a) : l.map f = l := by
  induction l with
  | nil => rfl
  | cons x xs ih =>
    simp only [List.map_cons, h x (List.mem_cons_self x xs)]
    rw [ih fun a ha => h a (List.mem_cons_of_mem x ha)]

/-- The in-place overwrite performed by the update branch of
`create_or_update_stock_note`: under unique primary keys, at most one
matching row, and a found row `m`, rewriting the row with key `m.id` to carry
note `c` leaves exactly one row for the (owner, symbol) key, every matching
row carries `c`, and the primary keys of the table are untouched. -/
theorem note_overwrite_post (user_id : Nat) (symbol c : String)
    (l : List StockNoteRow) (m : StockNoteRow)
    (hnd : (l.map fun n => n.id).Nodup)
    (hfind : l.find? (noteKey user_id symbol) = some m)
    (hcount : l.countP (noteKey user_id symbol) ≤ 1) :
    (l.map fun n =>
        if n.id == m.id then { m with note := c } else n).countP
      (noteKey user_id symbol) = 1
    ∧ (∀ n ∈ l.map fun n =>
          if n.id == m.id then { m with note := c } else n,
        noteKey user_id symbol n = true → n.note = c)
    ∧ ((l.map fun n =>
          if n.id == m.id then { m with note := c } else n).map
        fun n => n.id) = l.map fun n => n.id := by
  induction l with
  | nil => simp at hfind
  | cons h t ih =>
    by_cases hp : noteKey user_id symbol h = true
    · have hm : m = h := by
        rw [List.find?_cons_of_pos _ hp] at hfind
        exact (Option.some.inj hfind).symm
      subst hm
      have hct : t.countP (noteKey user_id symbol) = 0 := by
        rw [List.countP_cons_of_pos _ t hp] at hcount
        omega
      have htnone : ∀ n ∈ t, ¬ noteKey user_id symbol n = true := by
        intro n hn hpn
        have : 0 < t.countP (noteKey user_id symbol) :=
          List.countP_pos_iff.mpr ⟨n, hn, hpn⟩
        omega
      have hmid : m.id ∉ t.map fun n => n.id := (List.nodup_cons.mp hnd).1
      have hmap : (t.map fun n =>
          if n.id == m.id then { m with note := c } else n) = t := by
        apply map_fixes_eq_self
        intro a ha
        have hane : ¬ a.id = m.id := by
          intro hid
          apply hmid
          rw [← hid]
          exact List.mem_map.mpr ⟨a, ha, rfl⟩
        simp [hane]
      have hhead : (if (m.id == m.id) = true
          then { m with note := c } else m) = { m with note := c } :=
        if_pos (by simp)
      have hpm : noteKey user_id symbol { m with note := c } = true := hp
      refine ⟨?_, ?_, ?_⟩
      · simp only [List.map_cons, hhead, hmap]
        rw [List.countP_cons_of_pos _ t hpm, hct]
      · intro n hn hpn
        simp only [List.map_cons, hhead, hmap] at hn
        rcases List.mem_cons.mp hn with rfl | hn
        · rfl
        · exact absurd hpn (htnone n hn)
      · simp only [List.map_cons, hhead, hmap]
    · have hfind' : t.find? (noteKey user_id symbol) = some m := by
        rw [List.find?_cons_of_neg _ hp] at hfind
        exact hfind
      have hmem : m ∈ t := List.mem_of_find?_eq_some hfind'
      have hhid : ¬ h.id = m.id := by
        intro hid
        exact (List.nodup_cons.mp hnd).1 (List.mem_map.mpr ⟨m, hmem, hid.symm⟩)
      have hcount' : t.countP (noteKey user_id symbol) ≤ 1 := by
        rw [List.countP_cons_of_neg _ t hp] at hcount
        exact hcount
      have hhead : (if (h.id == m.id) = true
          then { m with note := c } else h) = h :=
        if_neg (by simp [hhid])
      obtain ⟨ihc, iha, ihi⟩ :=
        ih (List.nodup_cons.mp hnd).2 hfind' hcount'
      refine ⟨?_, ?_, ?_⟩
      · simp only [List.map_cons, hhead]
        rw [List.countP_cons_of_neg _ _ hp, ihc]
      · intro n hn hpn
        simp only [List.map_cons, hhead] at hn
        rcases List.mem_cons.mp hn with rfl | hn
        · exact absurd hpn hp
        · exact iha n hn hpn
      · simp only [List.map_cons, hhead]
        rw [ihi]

/-- The insert branch of `create_or_update_stock_note`: when no row matches
the (owner, symbol) key, appending the fresh row leaves exactly one matching
row, and it carries the requested note. -/
theorem note_insert_post (user_id : Nat) (symbol c : String)
    (l : List StockNoteRow) (nid : Nat)
    (hfind : l.find? (noteKey user_id symbol) = none) :
    (l ++ [({ id := nid, symbol := symbol, note := c, owner_id := user_id }
        : StockNoteRow)]).countP (noteKey user_id symbol) = 1
    ∧ ∀ n ∈ l ++ [({ id := nid, symbol := symbol, note := c, owner_id := user_id } : StockNoteRow)],
        noteKey user_id symbol n = true → n.note = c := by
  have hnone : ∀ n ∈ l, ¬ noteKey user_id symbol n = true :=
    List.find?_eq_none.mp hfind
  have hnew : noteKey user_id symbol
      { id := nid, symbol := symbol, note := c, owner_id := user_id }
      = true := by
    simp [noteKey]
  constructor
  · rw [List.countP_append, List.countP_eq_zero.mpr hnone]
    simp [hnew]
  · intro n hn hpn
    rcases List.mem_append.mp hn with hn | hn
    · exact absurd hpn (hnone n hn)
    · rcases List.mem_singleton.mp hn with rfl
      rfl

/-- The storage invariant of the notes table maintained by the embedding of
the autoincrement primary key: keys are unique and below the counter. -/
def notesOk (db : DB) : Prop :=
  (db.stock_notes.map fun n => n.id).Nodup
  ∧ ∀ n ∈ db.stock_notes, n.id < db.next_note_id

instance (db : DB) : Decidable (notesOk db) := by
  unfold notesOk
  infer_instance

/-- One call of `create_or_update_stock_note` establishes: storage invariant
preserved, exactly one row for the (owner, symbol) key, every matching row —
and the returned row — carrying the requested content. -/
theorem create_or_update_stock_note_post (db : DB) (user_id : Nat)
    (symbol c : String) (hok : notesOk db)
    (hcount : db.stock_notes.countP (noteKey user_id symbol) ≤ 1) :
    notesOk (create_or_update_stock_note db user_id symbol c).2
    ∧ (create_or_update_stock_note db user_id symbol c).2.stock_notes.countP
        (noteKey user_id symbol) = 1
    ∧ (∀ n ∈ (create_or_update_stock_note db user_id symbol c).2.stock_notes,
        noteKey user_id symbol n = true → n.note = c)
    ∧ (create_or_update_stock_note db user_id symbol c).1.note = c := by
  rcases hfind : get_stock_note db user_id symbol with _ | m
  · have hfind' : db.stock_notes.find? (noteKey user_id symbol) = none := hfind
    have heq : create_or_update_stock_note db user_id symbol c =
        ({ id := db.next_note_id, symbol := symbol, note := c,
           owner_id := user_id },
         { db with
             stock_notes := db.stock_notes ++
               [{ id := db.next_note_id, symbol := symbol, note := c,
                  owner_id := user_id }],
             next_note_id := db.next_note_id + 1 }) := by
      unfold create_or_update_stock_note
      rw [hfind]
    obtain ⟨hc, ha⟩ :=
      note_insert_post user_id symbol c db.stock_notes db.next_note_id hfind'
    rw [heq]
    refine ⟨⟨?_, ?_⟩, hc, ha, rfl⟩
    · rw [List.map_append, List.nodup_append]
      refine ⟨hok.1, List.nodup_singleton _, ?_⟩
      intro x hx hx'
      rcases List.mem_map.mp hx with ⟨n, hn, rfl⟩
      have hxid : n.id = db.next_note_id := by
        rcases List.mem_map.mp hx' with ⟨n', hn', hid⟩
        rcases List.mem_singleton.mp hn' with rfl
        exact hid.symm
      have := hok.2 n hn
      omega
    · intro n hn
      rcases List.mem_append.mp hn with hn | hn
      · exact Nat.lt_succ_of_lt (hok.2 n hn)
      · rcases List.mem_singleton.mp hn with rfl
        exact Nat.lt_succ_self _
  · have hfind' : db.stock_notes.find? (noteKey user_id symbol) = some m :=
      hfind
    have heq : create_or_update_stock_note db user_id symbol c =
        ({ m with note := c },
         { db with
             stock_notes := db.stock_notes.map fun n =>
               if n.id == m.id then { m with note := c } else n }) := by
      unfold create_or_update_stock_note
      rw [hfind]
    obtain ⟨hc, ha, hi⟩ :=
      note_overwrite_post user_id symbol c db.stock_notes m hok.1 hfind'
        hcount
    rw [heq]
    refine ⟨⟨?_, ?_⟩, hc, ha, rfl⟩
    · rw [hi]
      exact hok.1
    · intro n hn
      rcases List.mem_map.mp hn with ⟨x, hx, rfl⟩
      have hxid : (if (x.id == m.id) = true
          then { m with note := c } else x).id = x.id := by
        by_cases hb : (x.id == m.id) = true
        · rw [if_pos hb]
          exact (beq_iff_eq.mp hb).symm
        · rw [if_neg hb]
      rw [hxid]
      exact hok.2 x hx

/-- C2: starting from any database satisfying the storage invariant and
holding at most one note for the (user, symbol) key — the state the upsert
logic itself maintains — two successive create-or-update calls for the same
user and symbol with contents `c₁` then `c₂` leave exactly one note row for
that key, every such row (and the returned row) carrying `c₂`. -/
theorem stock_note_upsert_idempotent (db : DB) (user_id : Nat)
    (symbol c₁ c₂ : String) (hok : notesOk db)
    (hcount : db.stock_notes.countP (noteKey user_id symbol) ≤ 1) :
    (create_or_update_stock_note
        (create_or_update_stock_note db user_id symbol c₁).2
        user_id symbol c₂).2.stock_notes.countP (noteKey user_id symbol) = 1
    ∧ (∀ n ∈ (create_or_update_stock_note
          (create_or_update_stock_note db user_id symbol c₁).2
          user_id symbol c₂).2.stock_notes,
        noteKey user_id symbol n = true → n.note = c₂)
    ∧ (create_or_update_stock_note
        (create_or_update_stock_note db user_id symbol c₁).2
        user_id symbol c₂).1.note = c₂ := by
  obtain ⟨hok1, hcnt1, -, -⟩ :=
    create_or_update_stock_note_post db user_id symbol c₁ hok hcount
  obtain ⟨-, hcnt2, hall2, hnote2⟩ :=
    create_or_update_stock_note_post
      (create_or_update_stock_note db user_id symbol c₁).2 user_id symbol c₂
      hok1 (by omega)
  exact ⟨hcnt2, hall2, hnote2⟩

/-- Witness for C2: on the one-user database with no notes, writing "first"
then "second" for (user 1, "AAPL") leaves one matching row with note
"second", which is also the returned row's content. -/
theorem stock_note_upsert_idempotent_witness :
    (create_or_update_stock_note
        (create_or_update_stock_note demoDB 1 "AAPL" "first").2
        1 "AAPL" "second").2.stock_notes.countP (noteKey 1 "AAPL") = 1
    ∧ (∀ n ∈ (create_or_update_stock_note
          (create_or_update_stock_note demoDB 1 "AAPL" "first").2
          1 "AAPL" "second").2.stock_notes,
        noteKey 1 "AAPL" n = true → n.note = "second")
    ∧ (create_or_update_stock_note
        (create_or_update_stock_note demoDB 1 "AAPL" "first").2
        1 "AAPL" "second").1.note = "second" :=
  stock_note_upsert_idempotent demoDB 1 "AAPL" "first" "second" (by decide)
    (by decide)

end StockScreener
